import Mathlib

/-!
Verification development for the TelegramCopyTradeBot repository.

The Python sources under scrutiny are `trading_logic.py` and
`exchange_execution.py`.  Numeric values are embedded as rationals (`ℚ`):
the Python code computes with IEEE floats, and every concrete input used
below is chosen to be exactly representable so that the rational model and
the float execution agree.  Fallible Python code (functions that raise and
are caught by a surrounding `try`/`except`) is embedded with `Option` /
`Except`.  Exchange I/O is abstracted as explicit function arguments
(oracles) passed to the embedded operations.
-/

namespace CopyTradeBot

/-- Python `int(float(x))` on a rational value: truncation toward zero. -/
def pyInt (q : ℚ) : ℤ :=
  if 0 ≤ q then ⌊q⌋ else ⌈q⌉

/-- Python `math.isclose(a, b, rel_tol := 1e-5)` (the default `abs_tol` is 0):
`|a - b| ≤ rel_tol * max |a| |b|`. -/
def pyIsClose (a b : ℚ) : Bool :=
  |a - b| ≤ (1 / 100000) * max |a| |b|

/-- Rounding to the nearest integer with ties going to the even neighbour.
This is the rounding performed by Python `format(x, '.pf')` on the digit at
the cut-off position (modelled here exactly over ℚ). -/
def roundHalfEven (q : ℚ) : ℤ :=
  if q - (⌊q⌋ : ℚ) = 1 / 2 then
    (if ⌊q⌋ % 2 = 0 then ⌊q⌋ else ⌊q⌋ + 1)
  else round q

/- ### Data model

`models.py` is imported by both source files but is not part of src/; the
structures below therefore carry only the fields the embedded operations
read, with shapes taken from the spec's data-model section and from how the
source code accesses them. -/

/-- Modelled from the spec: `models.EntryZone` (models.py is absent from src/).
Spec section 3: price, percentage (of position_size), status, order_id. -/
structure EntryZone where
  price : ℚ
  percentage : ℚ
deriving DecidableEq, Repr

/-- Modelled from the spec: `models.TakeProfitLevel` (models.py is absent from
src/).  Spec section 3: price, percentage, is_hit, hit_time.  The hit time is
modelled as an abstract tick (ℕ). -/
structure TakeProfitLevel where
  price : ℚ
  percentage : ℚ
  is_hit : Bool := false
  hit_time : Option ℕ := none
deriving DecidableEq, Repr

/-- Modelled from the spec: `models.TradingSignal` (models.py is absent from
src/), fields per spec section 3 and the constructor call in
`trading_logic.py` lines 228-243.  A Python `None` list is modelled as `[]`
(both are falsy, and the source only tests truthiness). -/
structure TradingSignal where
  exchange : String
  symbol : String
  action : String
  entry_price : Option ℚ
  entry_zones : List EntryZone
  take_profit_levels : List TakeProfitLevel
  stop_loss : Option ℚ
  position_size : ℚ
  leverage : ℤ
  margin_mode : String
  confidence : ℚ
  risk_level : String
deriving DecidableEq, Repr

/-- `exchange_execution.OrderParams` (lines 71-83), restricted to the fields
the embedded operations read. -/
structure OrderParams where
  symbol : String
  side : String
  order_type : String
  amount : ℚ
  price : Option ℚ := none
  stop_price : Option ℚ := none
  reduce_only : Bool := false
  leverage : Option ℤ := none
  margin_mode : String := "cross"
deriving DecidableEq, Repr

/-- `models.OrderResult` as constructed in `exchange_execution.py`
(success flag, order id, executed price/amount, error message). -/
structure OrderResult where
  success : Bool
  order_id : Option String := none
  executed_price : Option ℚ := none
  executed_amount : Option ℚ := none
  error_message : Option String := none
deriving DecidableEq, Repr

/- ### trading_logic.py: raw candidate and the message-processing pipeline

The raw candidate is the JSON dictionary parsed from the extractor response.
Optional fields are `Option`; the embedding covers candidates whose numeric
fields are numbers (for which Python `float(...)` coercion succeeds), which
includes every input used by the theorems below. -/

/-- A raw entry-zone record of the candidate dictionary. -/
structure RawZone where
  price : ℚ
  percentage : ℚ
deriving DecidableEq, Repr

/-- A raw take-profit record of the candidate dictionary. -/
structure RawTP where
  price : ℚ
  percentage : ℚ
deriving DecidableEq, Repr

/-- The parsed candidate dictionary handed to the validation and conversion
steps of `TradingLogic.process_message` (trading_logic.py lines 343-365).
A missing key is `none`. -/
structure RawCandidate where
  exchange : Option String := none
  symbol : Option String := none
  action : Option String := none
  entry_price : Option ℚ := none
  entry_zones : Option (List RawZone) := none
  take_profit_levels : Option (List RawTP) := none
  stop_loss : Option ℚ := none
  position_size : Option ℚ := none
  leverage : Option ℚ := none
  margin_mode : Option String := none
  confidence : Option ℚ := none
  risk_level : Option String := none
deriving DecidableEq, Repr

/-- `TradingLogic._validate_json_data` (trading_logic.py lines 48-111) on the
numeric-valued candidate domain: the required fields must be present, the
exchange, symbol and action must be well-formed; zone and take-profit entries
always carry both keys here, and numeric fields always coerce. -/
def validate_json_data (d : RawCandidate) : Bool :=
  d.exchange.isSome && d.symbol.isSome && d.action.isSome &&
  (d.exchange = some "BINANCE" || d.exchange = some "OKX") &&
  (match d.symbol with
   | some s => !s.isEmpty
   | none => false) &&
  (d.action = some "OPEN_LONG" || d.action = some "OPEN_SHORT" ||
   d.action = some "CLOSE")

/-- `TradingLogic._normalize_numbers` (trading_logic.py lines 113-147) on the
numeric domain: the `float(...)` coercions are identities, and the leverage
field gets `int(float(...))`. -/
def normalize_numbers (d : RawCandidate) : RawCandidate :=
  { d with leverage := d.leverage.map (fun q => ((pyInt q : ℤ) : ℚ)) }

/-- Entry zones built by `TradingLogic._convert_to_trading_signal`
(trading_logic.py lines 163-178); on the numeric domain no zone is skipped. -/
def parse_entry_zones (d : RawCandidate) : List EntryZone :=
  match d.entry_zones with
  | some zs => zs.map (fun z => { price := z.price, percentage := z.percentage })
  | none => []

/-- Take-profit levels built by `TradingLogic._convert_to_trading_signal`
(trading_logic.py lines 193-207), before percentage renormalization. -/
def parse_tp_levels (d : RawCandidate) : List TakeProfitLevel :=
  (d.take_profit_levels.getD []).map
    (fun t => { price := t.price, percentage := t.percentage })

/-- The take-profit percentage renormalization of
`TradingLogic._convert_to_trading_signal` (trading_logic.py lines 209-216):
if the percentages of a nonempty list do not sum to 1 within `isclose`
tolerance, each is divided by the total.  A zero total makes the Python
division raise `ZeroDivisionError`, which the enclosing handler turns into a
`None` result, hence the `none` branch. -/
def normalize_tp_percentages (tps : List TakeProfitLevel) :
    Option (List TakeProfitLevel) :=
  match tps with
  | [] => some []
  | tp0 :: rest =>
    let total := ((tp0 :: rest).map (fun tp => tp.percentage)).sum
    if pyIsClose total 1 then some (tp0 :: rest)
    else if total = 0 then none
    else some ((tp0 :: rest).map
      (fun tp => { tp with percentage := tp.percentage / total }))

/-- Modelled from the spec: `TradingSignal.is_valid` lives in `models.py`,
which is absent from src/.  Spec section 4.1: for any non-CLOSE action the
signal needs at least one of entry_price / entry_zones, at least one
take-profit level, and a stop-loss (matching the error report in
trading_logic.py lines 272-278). -/
def is_valid (s : TradingSignal) : Bool :=
  if s.action = "CLOSE" then true
  else
    (s.entry_price.isSome || !s.entry_zones.isEmpty) &&
    !s.take_profit_levels.isEmpty && s.stop_loss.isSome

/-- The tail of `TradingLogic._convert_to_trading_signal` (trading_logic.py
lines 193-281) once the entry reference is settled: take-profit
renormalization, the `TradingSignal` construction with field defaults, and
the final `is_valid` gate. -/
def mk_converted_signal (d : RawCandidate) (ex sym act : String)
    (ep : Option ℚ) (zones : List EntryZone) : Option TradingSignal :=
  match normalize_tp_percentages (parse_tp_levels d) with
  | none => none
  | some tps =>
    let s : TradingSignal :=
      { exchange := ex
        symbol := sym
        action := act
        entry_price := ep
        entry_zones := zones
        take_profit_levels := tps
        stop_loss := d.stop_loss
        position_size := d.position_size.getD 50
        leverage := pyInt (d.leverage.getD 10)
        margin_mode := d.margin_mode.getD "cross"
        confidence := d.confidence.getD (4 / 5)
        risk_level := d.risk_level.getD "MEDIUM" }
    if is_valid s then some s else none

/-- `TradingLogic._convert_to_trading_signal` (trading_logic.py lines
149-293): required fields; a nonempty entry-zone list takes precedence and
then no single entry price is read (the `elif` at line 180); with no zones a
present entry price is used; with neither the function returns `None` (line
189-191); then take-profit renormalization, field defaults, and the final
`is_valid` gate (both steps live in `mk_converted_signal` above). -/
def convert_to_trading_signal (d : RawCandidate) : Option TradingSignal :=
  match d.exchange, d.symbol, d.action with
  | some ex, some sym, some act =>
    (match parse_entry_zones d with
     | z :: zs => mk_converted_signal d ex sym act none (z :: zs)
     | [] =>
       match d.entry_price with
       | some p => mk_converted_signal d ex sym act (some p) []
       | none => none)
  | _, _, _ => none

/-- The entry-price reference used by `_validate_risk_ratio`,
`_calculate_default_stop_loss` and `_calculate_default_take_profits`
(trading_logic.py lines 457-461, 478-481, 510-513): the signal's entry price,
or the mean of the zone prices when the entry price is falsy (Python `not
entry_price` is true for both `None` and `0.0`) and zones exist. -/
def entry_reference (s : TradingSignal) : Option ℚ :=
  if (s.entry_price = none ∨ s.entry_price = some 0) ∧ ¬ s.entry_zones.isEmpty then
    some ((s.entry_zones.map (fun z => z.price)).sum / (s.entry_zones.length : ℚ))
  else s.entry_price

/-- The maximum take-profit price, `max(tp.price for tp in ...)`
(nonempty in every use). -/
def max_tp_price : List TakeProfitLevel → ℚ
  | [] => 0
  | tp :: rest => rest.foldl (fun m t => max m t.price) tp.price

/-- The minimum take-profit price, `min(tp.price for tp in ...)`. -/
def min_tp_price : List TakeProfitLevel → ℚ
  | [] => 0
  | tp :: rest => rest.foldl (fun m t => min m t.price) tp.price

/-- `TradingLogic._validate_risk_ratio` (trading_logic.py lines 504-533):
CLOSE signals pass; a falsy stop-loss or empty take-profit list fails; a
missing entry reference makes the arithmetic raise, which the handler turns
into `false`; otherwise reward/risk must be at least 1.5 with positive risk. -/
def validate_risk_ratio (s : TradingSignal) : Bool :=
  if s.action = "CLOSE" then true
  else
    match entry_reference s with
    | none => false
    | some entry =>
      match s.stop_loss with
      | none => false
      | some sl =>
        if sl = 0 ∨ s.take_profit_levels.isEmpty then false
        else
          let reward :=
            if s.action = "OPEN_LONG" then max_tp_price s.take_profit_levels - entry
            else entry - min_tp_price s.take_profit_levels
          let risk := if s.action = "OPEN_LONG" then entry - sl else sl - entry
          if 0 < risk then decide ((3 : ℚ) / 2 ≤ reward / risk) else false

/-- The deterministic tail of `TradingLogic.process_message`
(trading_logic.py lines 343-365), from the parsed candidate dictionary to the
returned signal.  Note line 352 of the source: the risk-ratio validation is
commented out (`risk_ratio_valid = True#self._validate_risk_ratio(signal)`),
so no risk-ratio check takes place here. -/
def process_parsed_message (d : RawCandidate) : Option TradingSignal :=
  if validate_json_data d then
    match convert_to_trading_signal (normalize_numbers d) with
    | some s => if is_valid s then some s else none
    | none => none
  else none

/-- `TradingLogic._calculate_default_take_profits` (trading_logic.py lines
475-502): three levels at 2R/3R/4R of the stop distance, split 40/30/30;
added above the entry for OPEN_LONG and below it otherwise.  A missing entry
reference makes the arithmetic raise and the handler return `[]`. -/
def calculate_default_take_profits (action : String) (entry_price : Option ℚ)
    (entry_zones : List EntryZone) (stop_loss : ℚ) : List TakeProfitLevel :=
  let ep : Option ℚ :=
    if (entry_price = none ∨ entry_price = some 0) ∧ ¬ entry_zones.isEmpty then
      some ((entry_zones.map (fun z => z.price)).sum / (entry_zones.length : ℚ))
    else entry_price
  match ep with
  | none => []
  | some entry =>
    let stop_distance := |entry - stop_loss|
    let multipliers : List ℚ := [2, 3, 4]
    let percentages : List ℚ := [2 / 5, 3 / 10, 3 / 10]
    (multipliers.zip percentages).map (fun mp =>
      let price :=
        if action = "OPEN_LONG" then entry + stop_distance * mp.1
        else entry - stop_distance * mp.1
      { price := price, percentage := mp.2 : TakeProfitLevel })

/- ### exchange_execution.py: sizing, leverage, orders, balances, positions -/

/-- `PositionSide` (exchange_execution.py lines 49-52). -/
inductive PositionSide where
  | LONG
  | SHORT
deriving DecidableEq, Repr

/-- `MarginType` (exchange_execution.py lines 54-57). -/
inductive MarginType where
  | CROSS
  | ISOLATED
deriving DecidableEq, Repr

/-- `ExchangeClient._format_amount` (exchange_execution.py lines 846-856) for
a symbol whose market info is cached with the given amount precision: Python
`float(format(amount, '.pf'))`, i.e. rounding to the nearest multiple of
`10 ^ (-p)` with ties to even. -/
def format_amount (precision : ℕ) (amount : ℚ) : ℚ :=
  ((roundHalfEven (amount * 10 ^ precision) : ℤ) : ℚ) / 10 ^ precision

/-- The conversion details dictionary returned by
`ExchangeClient.convert_amount_to_contracts` (exchange_execution.py lines
734-741). -/
structure ConversionDetails where
  raw_quantity : ℚ
  formatted_quantity : ℚ
  initial_margin : ℚ
  notional_value : ℚ
  price : ℚ
  leverage : ℤ
deriving DecidableEq, Repr

/-- `ExchangeClient.convert_amount_to_contracts` (exchange_execution.py lines
693-745): the leverage is re-capped at the symbol's maximum, the notional is
`usdt_amount * actual_leverage`, the raw quantity is notional over price, and
the formatted quantity applies the symbol's amount precision. -/
def convert_amount_to_contracts (precision : ℕ) (max_leverage : ℤ)
    (usdt_amount price : ℚ) (leverage : ℤ) : ℚ × ConversionDetails :=
  let actual_leverage := min leverage max_leverage
  let notional_value := usdt_amount * (actual_leverage : ℚ)
  let quantity := notional_value / price
  let formatted_quantity := format_amount precision quantity
  (formatted_quantity,
   { raw_quantity := quantity
     formatted_quantity := formatted_quantity
     initial_margin := formatted_quantity * price / (actual_leverage : ℚ)
     notional_value := formatted_quantity * price
     price := price
     leverage := actual_leverage })

/-- An outbound exchange configuration call, recording the order in which
`ExchangeClient.set_leverage` touches the exchange. -/
inductive ExchangeAction where
  | setMarginMode (mode : String) (symbol : String)
  | setLeverage (leverage : ℤ) (symbol : String)
deriving DecidableEq, Repr

/-- `ExchangeClient.set_leverage` (exchange_execution.py lines 662-691):
caps the requested leverage at the exchange maximum for the symbol, sets the
margin mode first and the (capped) leverage second, and returns the actual
leverage. -/
def set_leverage (symbol : String) (leverage max_leverage : ℤ)
    (margin_mode : String) : ℤ × List ExchangeAction :=
  let actual_leverage := min leverage max_leverage
  (actual_leverage,
   [ExchangeAction.setMarginMode margin_mode symbol,
    ExchangeAction.setLeverage actual_leverage symbol])

/-- The quantity submitted by `ExchangeClient.create_order`
(exchange_execution.py lines 759-771): the leverage defaults to 50, is set
through `set_leverage`, and the returned actual leverage feeds the
USDT-to-contracts conversion. -/
def create_order_quantity (symbol margin_mode : String) (precision : ℕ)
    (max_leverage : ℤ) (usdt_amount use_price : ℚ)
    (requested : Option ℤ) : ℚ :=
  let leverage := requested.getD 50
  let actual_leverage := (set_leverage symbol leverage max_leverage margin_mode).1
  (convert_amount_to_contracts precision max_leverage usdt_amount use_price
    actual_leverage).1

/-- Whether an abstract exchange call returned normally (`Except.ok`) rather
than raising. -/
def call_ok (r : Except String OrderResult) : Bool :=
  match r with
  | Except.ok _ => true
  | Except.error _ => false

/-- The `OrderParams` built for one entry zone by
`ExchangeManager.execute_signal` (exchange_execution.py lines 1135-1144). -/
def zone_order_params (sig : TradingSignal) (zone : EntryZone) : OrderParams :=
  { symbol := sig.symbol
    side := if sig.action = "OPEN_LONG" then "buy" else "sell"
    order_type := "LIMIT"
    amount := sig.position_size * zone.percentage
    price := some zone.price
    leverage := some sig.leverage
    margin_mode := sig.margin_mode }

/-- The `OrderParams` built by `ExchangeManager.execute_signal` when the
signal has no entry zones (exchange_execution.py lines 1164-1173). -/
def single_order_params (sig : TradingSignal) : OrderParams :=
  { symbol := sig.symbol
    side := if sig.action = "OPEN_LONG" then "buy" else "sell"
    order_type := if sig.entry_price.isNone then "MARKET" else "LIMIT"
    amount := sig.position_size
    price := sig.entry_price
    leverage := some sig.leverage
    margin_mode := sig.margin_mode }

/-- The zone loop of `ExchangeManager.execute_signal` (exchange_execution.py
lines 1124-1156).  `ExchangeClient.create_order` raises on any failure
(line 827), so an error escapes the loop: later zones are not reached. -/
def run_zone_orders (exec_order : OrderParams → Except String OrderResult)
    (sig : TradingSignal) : List EntryZone → Except String (List OrderResult)
  | [] => Except.ok []
  | zone :: rest =>
    match exec_order (zone_order_params sig zone) with
    | Except.error e => Except.error e
    | Except.ok r =>
      match run_zone_orders exec_order sig rest with
      | Except.error e => Except.error e
      | Except.ok rs => Except.ok (r :: rs)

/-- The zone orders that `ExchangeManager.execute_signal` actually hands to
`create_order` before the loop ends (normally or by an escaping exception). -/
def attempted_zone_orders (exec_order : OrderParams → Except String OrderResult)
    (sig : TradingSignal) : List EntryZone → List OrderParams
  | [] => []
  | zone :: rest =>
    let p := zone_order_params sig zone
    match exec_order p with
    | Except.error _ => [p]
    | Except.ok _ => p :: attempted_zone_orders exec_order sig rest

/-- `ExchangeManager.execute_signal` (exchange_execution.py lines 1110-1181):
an unconfigured exchange fails fast; with entry zones the zone loop runs and
the first result is returned (an exception from `create_order` is caught by
the surrounding handler, which returns a failed `OrderResult`); without zones
a single MARKET/LIMIT order is placed. -/
def execute_signal
    (exchange : Option (OrderParams → Except String OrderResult))
    (sig : TradingSignal) : OrderResult :=
  match exchange with
  | none => { success := false, error_message := some "Exchange not configured" }
  | some exec_order =>
    if ¬ sig.entry_zones.isEmpty then
      match run_zone_orders exec_order sig sig.entry_zones with
      | Except.ok results =>
        results.headD { success := false, error_message := some "No orders created" }
      | Except.error e => { success := false, error_message := some e }
    else
      match exec_order (single_order_params sig) with
      | Except.ok r => r
      | Except.error e => { success := false, error_message := some e }

/-- The reduce-only MARKET close order built for a triggered take-profit
level (exchange_execution.py lines 1217-1224). -/
def tp_close_order (symbol action : String) (amount : ℚ) : OrderParams :=
  { symbol := symbol
    side := if action = "OPEN_LONG" then "sell" else "buy"
    order_type := "MARKET"
    amount := amount
    reduce_only := true }

/-- The level loop of `ExchangeManager._check_take_profit_levels`
(exchange_execution.py lines 1204-1230): already-hit levels are skipped; a
triggered level gets a reduce-only MARKET close sized
`position.size * level.percentage`; `is_hit` and `hit_time` are set only when
the order reports success.  `create_order` raises on failure, and the
function-level handler then abandons the rest of the pass, leaving the
remaining levels untouched.  Returns the orders handed to `create_order` and
the updated level list. -/
def check_take_profit_levels
    (exec_order : OrderParams → Except String OrderResult)
    (action symbol : String) (position_size current_price : ℚ) (now : ℕ) :
    List TakeProfitLevel → List OrderParams × List TakeProfitLevel
  | [] => ([], [])
  | tp :: rest =>
    if tp.is_hit then
      let r := check_take_profit_levels exec_order action symbol position_size
        current_price now rest
      (r.1, tp :: r.2)
    else
      if (action = "OPEN_LONG" ∧ tp.price ≤ current_price) ∨
         (action = "OPEN_SHORT" ∧ current_price ≤ tp.price) then
        let order := tp_close_order symbol action (position_size * tp.percentage)
        match exec_order order with
        | Except.ok result =>
          let tp' := if result.success then
              { tp with is_hit := true, hit_time := some now }
            else tp
          let r := check_take_profit_levels exec_order action symbol position_size
            current_price now rest
          (order :: r.1, tp' :: r.2)
        | Except.error _ => ([order], tp :: rest)
      else
        let r := check_take_profit_levels exec_order action symbol position_size
          current_price now rest
        (r.1, tp :: r.2)

/-- The stop-loss order built by `ExchangeManager.modify_position`
(exchange_execution.py lines 1319-1327): a reduce-only STOP_MARKET order for
the full position size on the closing side. -/
def modify_position_stop_order (symbol : String) (pos_side : PositionSide)
    (position_size stop_loss : ℚ) : OrderParams :=
  { symbol := symbol
    side := if pos_side = PositionSide.SHORT then "buy" else "sell"
    order_type := "STOP_MARKET"
    amount := position_size
    stop_price := some stop_loss
    reduce_only := true }

/-- The state one dynamic-stop-loss pass reads and writes: the signal's
recorded stop (`signal.stop_loss`, the comparison baseline at
exchange_execution.py lines 1502 and 1512) and the stop orders issued so far
through `modify_position`, oldest first. -/
structure DynSLState where
  signal_stop_loss : ℚ
  issued_orders : List OrderParams
deriving DecidableEq, Repr

/-- `ExchangeManager._check_dynamic_stop_loss` (exchange_execution.py lines
1473-1520) for one position, assuming the signal is found and the
`modify_position` order succeeds: when price has moved favourably the
proposed stop locks in half the favourable distance, and it is issued only if
it beats `signal.stop_loss`.  The source never writes the new stop back to
`signal.stop_loss`, so the state's `signal_stop_loss` is left unchanged. -/
def check_dynamic_stop_loss (symbol action : String) (dynamic_sl : Bool)
    (pos_side : PositionSide) (position_size entry_price current_price : ℚ)
    (st : DynSLState) : DynSLState :=
  if position_size = 0 ∨ ¬ dynamic_sl then st
  else if action = "OPEN_LONG" then
    if entry_price < current_price then
      let profit_distance := current_price - entry_price
      let new_sl := entry_price + profit_distance * (1 / 2)
      if st.signal_stop_loss < new_sl then
        { st with issued_orders := st.issued_orders ++
            [modify_position_stop_order symbol pos_side position_size new_sl] }
      else st
    else st
  else
    if current_price < entry_price then
      let profit_distance := entry_price - current_price
      let new_sl := entry_price - profit_distance * (1 / 2)
      if new_sl < st.signal_stop_loss then
        { st with issued_orders := st.issued_orders ++
            [modify_position_stop_order symbol pos_side position_size new_sl] }
      else st
    else st

/-- `AccountBalance` (exchange_execution.py lines 140-149); every field
defaults to zero, so `AccountBalance()` is the all-zero record. -/
structure AccountBalance where
  total_equity : ℚ := 0
  used_margin : ℚ := 0
  free_margin : ℚ := 0
  margin_ratio : ℚ := 0
  unrealized_pnl : ℚ := 0
  realized_pnl : ℚ := 0
deriving DecidableEq, Repr

/-- The raw balance dictionary fields read by
`AccountBalance.from_exchange_balance`; a missing key is `none` (Python
`.get(..., 0) or 0` then yields 0). -/
structure RawBalance where
  total_usdt : Option ℚ := none
  used_usdt : Option ℚ := none
  free_usdt : Option ℚ := none
  unrealized_pnl : Option ℚ := none
  realized_pnl : Option ℚ := none
deriving DecidableEq, Repr

/-- `AccountBalance.from_exchange_balance` (exchange_execution.py lines
163-181): maps the raw totals and computes `margin_ratio` as
`used / total * 100` guarded by `total > 0`. -/
def from_exchange_balance (b : RawBalance) : AccountBalance :=
  let total := b.total_usdt.getD 0
  let used := b.used_usdt.getD 0
  let free := b.free_usdt.getD 0
  { total_equity := total
    used_margin := used
    free_margin := free
    margin_ratio := if 0 < total then used / total * 100 else 0
    unrealized_pnl := b.unrealized_pnl.getD 0
    realized_pnl := b.realized_pnl.getD 0 }

/-- `ExchangeClient.get_balance` (exchange_execution.py lines 511-531): a
fresh cached balance is returned as is; otherwise the exchange is queried,
and any exception (`Except.error`) is swallowed into the all-zero
`AccountBalance()`.  The function is total: no failure propagates. -/
def get_balance (balance_cache : Option AccountBalance)
    (balance_cache_time now cache_duration : ℚ)
    (fetched : Except String RawBalance) : AccountBalance :=
  if balance_cache.isSome ∧ now - balance_cache_time < cache_duration then
    balance_cache.getD {}
  else
    match fetched with
    | Except.ok raw => from_exchange_balance raw
    | Except.error _ => {}

/-- `PositionInfo` (exchange_execution.py lines 184-215), restricted to the
fields the embedded operations read. -/
structure PositionInfo where
  symbol : String
  side : PositionSide
  size : ℚ
  entry_price : ℚ
  margin_mode : MarginType
  leverage : ℤ
deriving DecidableEq, Repr

/-- The raw position dictionary fields read by
`PositionInfo.from_exchange_position`. -/
structure RawPosition where
  symbol : String
  contracts : ℚ
  side : String
  entry_raw : ℚ
  margin_mode_raw : String
  leverage_raw : ℚ
deriving DecidableEq, Repr

/-- `PositionInfo.from_exchange_position` (exchange_execution.py lines
221-273): a zero-size position yields `None`; the side and margin mode are
canonicalized and the size is the absolute contract count. -/
def from_exchange_position (pos : RawPosition) : Option PositionInfo :=
  if pos.contracts = 0 then none
  else some
    { symbol := pos.symbol
      side := if pos.side = "long" then PositionSide.LONG else PositionSide.SHORT
      size := |pos.contracts|
      entry_price := pos.entry_raw
      margin_mode := if pos.margin_mode_raw = "isolated" then MarginType.ISOLATED
        else MarginType.CROSS
      leverage := pyInt pos.leverage_raw }

/-- A value stored in the `ExchangeClient._position_cache` dictionary
(exchange_execution.py lines 556-561): per-symbol keys hold one
`PositionInfo`, while the `'all'` key holds the whole fetched list.  The
Python dictionary is heterogeneous; this sum type makes the two shapes
explicit. -/
inductive PosCacheValue where
  | single (p : PositionInfo)
  | aggregate (ps : List PositionInfo)
deriving DecidableEq, Repr

/-- `ExchangeClient.get_positions` (exchange_execution.py lines 533-567): the
cache key is the symbol or `'all'`; a fresh cache hit returns the one cached
value wrapped in a singleton list (line 541); a miss fetches, keeps nonzero
positions, caches each under its symbol and — for a symbol-less query — the
whole list under `'all'`.  Returns the result list and the cache writes. -/
def get_positions_cached (cache : String → Option (PosCacheValue × ℚ))
    (now cache_duration : ℚ) (symbol : Option String)
    (fetched : List RawPosition) :
    List PosCacheValue × List (String × PosCacheValue) :=
  let cache_key := symbol.getD "all"
  let fetch_path : List PosCacheValue × List (String × PosCacheValue) :=
    let infos := (fetched.filter (fun p => decide (p.contracts ≠ 0))).filterMap
      from_exchange_position
    let per_symbol := infos.map (fun p => (p.symbol, PosCacheValue.single p))
    let writes := if symbol.isNone then
        per_symbol ++ [("all", PosCacheValue.aggregate infos)]
      else per_symbol
    (infos.map PosCacheValue.single, writes)
  match cache cache_key with
  | some vt => if now - vt.2 < cache_duration then ([vt.1], []) else fetch_path
  | none => fetch_path

/- ### Helper lemmas -/

theorem abs_roundHalfEven_sub (q : ℚ) :
    |(roundHalfEven q : ℚ) - q| ≤ 1 / 2 := by
  unfold roundHalfEven
  split
  case isTrue h =>
    split
    case isTrue _ =>
      rw [abs_sub_comm, h, abs_of_pos (by norm_num : (0 : ℚ) < 1 / 2)]
    case isFalse _ =>
      push_cast
      rw [show ((⌊q⌋ : ℚ)) + 1 - q = 1 / 2 by linarith,
        abs_of_pos (by norm_num : (0 : ℚ) < 1 / 2)]
  case isFalse _ =>
    rw [abs_sub_comm]
    exact abs_sub_round q

theorem abs_format_amount_sub (precision : ℕ) (amount : ℚ) :
    |format_amount precision amount - amount| ≤ 1 / (2 * 10 ^ precision) := by
  unfold format_amount
  have h10 : (0 : ℚ) < 10 ^ precision := by positivity
  have hb := abs_roundHalfEven_sub (amount * 10 ^ precision)
  have key : (roundHalfEven (amount * 10 ^ precision) : ℚ) / 10 ^ precision - amount
      = ((roundHalfEven (amount * 10 ^ precision) : ℚ) - amount * 10 ^ precision) /
        10 ^ precision := by
    field_simp
    ring
  rw [key, abs_div, abs_of_pos h10,
    show (1 : ℚ) / (2 * 10 ^ precision) = (1 / 2) / 10 ^ precision by ring]
  exact (div_le_div_iff_of_pos_right h10).mpr hb

/- ### C1: the risk/reward gate of the message pipeline -/

/-- A crafted candidate whose reward/risk ratio is 1.2: long from 100, stop
90 (risk 10), single take-profit 112 (reward 12). -/
def c1Candidate : RawCandidate :=
  { exchange := some "BINANCE"
    symbol := some "BTCUSDT"
    action := some "OPEN_LONG"
    entry_price := some 100
    take_profit_levels := some [{ price := 112, percentage := 1 }]
    stop_loss := some 90 }

/-- The signal the pipeline produces for `c1Candidate`. -/
def c1Signal : TradingSignal :=
  { exchange := "BINANCE"
    symbol := "BTCUSDT"
    action := "OPEN_LONG"
    entry_price := some 100
    entry_zones := []
    take_profit_levels := [{ price := 112, percentage := 1 }]
    stop_loss := some 90
    position_size := 50
    leverage := 10
    margin_mode := "cross"
    confidence := 4 / 5
    risk_level := "MEDIUM" }

/-- C1: the claim says a risk/reward ratio of at least 1.5 is necessary for
the message pipeline to return a signal and that a 1.2-ratio candidate is
rejected.  The code contradicts this: the check is disabled in
`process_message` (trading_logic.py line 352 assigns
`risk_ratio_valid = True` with the real call commented out), so the
1.2-ratio candidate `c1Candidate` is returned as a signal even though
`_validate_risk_ratio` itself evaluates to false on it. -/
theorem c1_pipeline_returns_low_risk_reward_signal :
    process_parsed_message c1Candidate = some c1Signal ∧
    validate_risk_ratio c1Signal = false := by
  constructor
  · simp only [process_parsed_message, normalize_numbers,
      convert_to_trading_signal, c1Candidate, parse_entry_zones, parse_tp_levels,
      mk_converted_signal, normalize_tp_percentages, List.map, List.sum_cons,
      List.sum_nil, Option.getD, Option.map]
    norm_num [pyIsClose, is_valid, pyInt, c1Signal]
    exact fun h => absurd h (by decide)
  · simp only [validate_risk_ratio, c1Signal, entry_reference, max_tp_price]
    norm_num
    decide

/- ### C2: dynamic stop-loss passes across one position -/

/-- C2: the claim says that, with entry 100 and initial stop 98, a pass at
price 106 applies stop 103 and a later pass at price 104 never applies a
stop below 103.  The code contradicts the second half: the source never
writes the applied stop back to `signal.stop_loss`, so the second pass still
compares its proposal 102 against the stale 98 and issues a STOP_MARKET
order at 102 — below the previously applied 103. -/
theorem c2_second_pass_issues_looser_stop :
    (check_dynamic_stop_loss "BTCUSDT" "OPEN_LONG" true PositionSide.LONG 1 100 106
      { signal_stop_loss := 98, issued_orders := [] }).issued_orders.map
        (fun o => o.stop_price) = [some 103] ∧
    (check_dynamic_stop_loss "BTCUSDT" "OPEN_LONG" true PositionSide.LONG 1 100 104
      (check_dynamic_stop_loss "BTCUSDT" "OPEN_LONG" true PositionSide.LONG 1 100 106
        { signal_stop_loss := 98, issued_orders := [] })).issued_orders.map
        (fun o => o.stop_price) = [some 103, some 102] ∧
    (check_dynamic_stop_loss "BTCUSDT" "OPEN_LONG" true PositionSide.LONG 1 100 106
      { signal_stop_loss := 98, issued_orders := [] }).signal_stop_loss = 98 := by
  refine ⟨?_, ?_, ?_⟩ <;>
    · simp only [check_dynamic_stop_loss, modify_position_stop_order]
      norm_num

/- ### C3: floor rounding of the contract quantity -/

/-- C3 counterexample: the claim says the formatted contract quantity is the
raw quantity rounded down, hence always at most the raw quantity.  With
amount precision 0, 75 USDT at price 100 and leverage 1 the raw quantity is
0.75 but `float(format(0.75, '.0f'))` is 1: the formatted quantity exceeds
the raw quantity. -/
theorem c3_formatted_quantity_exceeds_raw :
    (convert_amount_to_contracts 0 100 75 100 1).2.raw_quantity = 3 / 4 ∧
    (convert_amount_to_contracts 0 100 75 100 1).1 = 1 ∧
    ¬ ((convert_amount_to_contracts 0 100 75 100 1).1 ≤
        (convert_amount_to_contracts 0 100 75 100 1).2.raw_quantity) := by
  refine ⟨?_, ?_, ?_⟩ <;>
    · simp only [convert_amount_to_contracts, format_amount, roundHalfEven]
      norm_num [round_eq]

/-- C3 amended: `convert_amount_to_contracts` rounds the raw quantity to the
nearest multiple of `10 ^ (-p)` (ties to even) rather than flooring it, so
the formatted quantity can exceed the raw quantity but never differs from it
by more than half of `10 ^ (-p)`. -/
theorem c3_amended_quantity_within_half_step (precision : ℕ) (max_leverage : ℤ)
    (usdt_amount price : ℚ) (leverage : ℤ) :
    |(convert_amount_to_contracts precision max_leverage usdt_amount price
        leverage).1 -
      (convert_amount_to_contracts precision max_leverage usdt_amount price
        leverage).2.raw_quantity| ≤ 1 / (2 * 10 ^ precision) := by
  simpa [convert_amount_to_contracts] using
    abs_format_amount_sub precision
      (usdt_amount * ((min leverage max_leverage : ℤ) : ℚ) / price)

/- ### C9: the default take-profit ladder -/

/-- C9: for an OPEN_LONG signal with entry price e and stop-loss s the
default take-profit computation yields exactly the three levels
e + 2d, e + 3d, e + 4d (d the stop distance) at percentages 0.4, 0.3, 0.3,
mirrored below the entry for OPEN_SHORT; at entry 100 and stop 98 this is
104 (40 percent), 106 (30 percent), 108 (30 percent). -/
theorem c9_default_take_profit_ladder (e s : ℚ) :
    calculate_default_take_profits "OPEN_LONG" (some e) [] s =
      [{ price := e + |e - s| * 2, percentage := 2 / 5 },
       { price := e + |e - s| * 3, percentage := 3 / 10 },
       { price := e + |e - s| * 4, percentage := 3 / 10 }] ∧
    calculate_default_take_profits "OPEN_SHORT" (some e) [] s =
      [{ price := e - |e - s| * 2, percentage := 2 / 5 },
       { price := e - |e - s| * 3, percentage := 3 / 10 },
       { price := e - |e - s| * 4, percentage := 3 / 10 }] ∧
    calculate_default_take_profits "OPEN_LONG" (some 100) [] 98 =
      [{ price := 104, percentage := 2 / 5 },
       { price := 106, percentage := 3 / 10 },
       { price := 108, percentage := 3 / 10 }] := by
  refine ⟨?_, ?_, ?_⟩ <;>
    · simp only [calculate_default_take_profits, List.zip, List.zipWith, List.map]
      norm_num
      try exact ⟨fun h => absurd h (by decide), fun h => absurd h (by decide),
        fun h => absurd h (by decide)⟩

/- ### C5: what the normalizer renormalizes -/

theorem convert_some_components (d : RawCandidate) (s : TradingSignal)
    (h : convert_to_trading_signal d = some s) :
    s.entry_zones = parse_entry_zones d ∧
    normalize_tp_percentages (parse_tp_levels d) = some s.take_profit_levels := by
  unfold convert_to_trading_signal at h
  split at h
  case h_2 => exact absurd h (by simp)
  case h_1 ex sym act hex hsym hact =>
    split at h
    case h_1 z zs hzones =>
      unfold mk_converted_signal at h
      split at h
      case h_1 => exact absurd h (by simp)
      case h_2 tps htps =>
        dsimp only at h
        split at h
        case isTrue =>
          injection h with h
          subst h
          exact ⟨hzones.symm, htps⟩
        case isFalse => exact absurd h (by simp)
    case h_2 hzones =>
      split at h
      case h_2 => exact absurd h (by simp)
      case h_1 p hp =>
        unfold mk_converted_signal at h
        split at h
        case h_1 => exact absurd h (by simp)
        case h_2 tps htps =>
          dsimp only at h
          split at h
          case isTrue =>
            injection h with h
            subst h
            exact ⟨hzones.symm, htps⟩
          case isFalse => exact absurd h (by simp)

theorem sum_map_div_self (l : List TakeProfitLevel) (T : ℚ) (hz : T ≠ 0)
    (hsum : (l.map fun tp => tp.percentage).sum = T) :
    ((l.map fun tp => ({ tp with percentage := tp.percentage / T } :
        TakeProfitLevel)).map fun tp => tp.percentage).sum = 1 := by
  rw [List.map_map]
  have hcomp : ((fun (tp : TakeProfitLevel) => tp.percentage) ∘
      fun (tp : TakeProfitLevel) =>
      ({ tp with percentage := tp.percentage / T } : TakeProfitLevel))
      = fun (tp : TakeProfitLevel) => tp.percentage / T := rfl
  rw [hcomp]
  simp only [div_eq_mul_inv]
  rw [List.sum_map_mul_right, hsum]
  exact mul_inv_cancel₀ hz

theorem normalize_tp_sum_cases (tps out : List TakeProfitLevel)
    (h : normalize_tp_percentages tps = some out) :
    out = [] ∨ (out.map fun tp => tp.percentage).sum = 1 ∨
      pyIsClose ((out.map fun tp => tp.percentage).sum) 1 = true := by
  unfold normalize_tp_percentages at h
  match tps with
  | [] =>
    injection h with h
    exact Or.inl h.symm
  | tp0 :: rest =>
    dsimp only at h
    split at h
    case isTrue hcl =>
      injection h with h
      subst h
      exact Or.inr (Or.inr hcl)
    case isFalse hcl =>
      split at h
      case isTrue => exact absurd h (by simp)
      case isFalse hz =>
        injection h with h
        subst h
        exact Or.inr (Or.inl (sum_map_div_self (tp0 :: rest) _ hz rfl))

/-- A candidate whose entry-zone percentages sum to 0.8, with valid
structure otherwise. -/
def c5Candidate : RawCandidate :=
  { exchange := some "BINANCE"
    symbol := some "BTCUSDT"
    action := some "OPEN_LONG"
    entry_zones := some [{ price := 100, percentage := 1 / 2 },
      { price := 99, percentage := 3 / 10 }]
    take_profit_levels := some [{ price := 150, percentage := 1 }]
    stop_loss := some 90 }

/-- The signal the pipeline produces for `c5Candidate`. -/
def c5Signal : TradingSignal :=
  { exchange := "BINANCE"
    symbol := "BTCUSDT"
    action := "OPEN_LONG"
    entry_price := none
    entry_zones := [{ price := 100, percentage := 1 / 2 },
      { price := 99, percentage := 3 / 10 }]
    take_profit_levels := [{ price := 150, percentage := 1 }]
    stop_loss := some 90
    position_size := 50
    leverage := 10
    margin_mode := "cross"
    confidence := 4 / 5
    risk_level := "MEDIUM" }

/-- C5 counterexample: the claim says accepted signals have entry-zone
percentage sums within 1e-5 of 1.  The normalizer accepts `c5Candidate`
although its zone percentages sum to 0.8: only take-profit percentages are
renormalized (trading_logic.py lines 209-216), entry-zone percentages are
passed through untouched (lines 167-178). -/
theorem c5_zone_percentages_not_renormalized :
    process_parsed_message c5Candidate = some c5Signal ∧
    (c5Signal.entry_zones.map fun z => z.percentage).sum = 4 / 5 ∧
    ¬ (|(c5Signal.entry_zones.map fun z => z.percentage).sum - 1| ≤ 1 / 100000) := by
  refine ⟨?_, ?_, ?_⟩
  · simp only [process_parsed_message, normalize_numbers,
      convert_to_trading_signal, c5Candidate, parse_entry_zones, parse_tp_levels,
      mk_converted_signal, normalize_tp_percentages, List.map, List.sum_cons,
      List.sum_nil, Option.getD, Option.map]
    norm_num [pyIsClose, is_valid, pyInt, c5Signal]
    try exact fun h => absurd h (by decide)
  · simp only [c5Signal, List.map, List.sum_cons, List.sum_nil]
    norm_num
  · simp only [c5Signal, List.map, List.sum_cons, List.sum_nil]
    norm_num
    rw [abs_of_pos] <;> norm_num

/-- C5 amended: the normalizer does not renormalize entry-zone percentages —
an accepted signal carries exactly the zones of the candidate — while the
take-profit percentages of an accepted signal sum to 1 exactly unless the
candidate's take-profit sum was already within the `isclose` tolerance of
1 (in which case they are kept as given). -/
theorem c5_amended_only_tp_renormalized (d : RawCandidate) (s : TradingSignal)
    (h : process_parsed_message d = some s) :
    s.entry_zones = parse_entry_zones d ∧
    (s.take_profit_levels ≠ [] →
      ((s.take_profit_levels.map fun tp => tp.percentage).sum = 1 ∨
       pyIsClose ((s.take_profit_levels.map fun tp => tp.percentage).sum) 1
         = true)) := by
  unfold process_parsed_message at h
  split at h
  case isFalse => exact absurd h (by simp)
  case isTrue hv =>
    split at h
    case h_2 => exact absurd h (by simp)
    case h_1 s1 hconv =>
      split at h
      case isFalse => exact absurd h (by simp)
      case isTrue hvalid =>
        injection h with h
        subst h
        obtain ⟨hz, htp⟩ := convert_some_components _ _ hconv
        constructor
        · rw [hz]
          rfl
        · intro hne
          rcases normalize_tp_sum_cases _ _ htp with hnil | hrest
          · exact absurd hnil hne
          · exact hrest

/-- A candidate whose take-profit percentages sum to 0.7 and get
renormalized to 5/7 and 2/7. -/
def c5WCandidate : RawCandidate :=
  { exchange := some "BINANCE"
    symbol := some "BTCUSDT"
    action := some "OPEN_LONG"
    entry_price := some 100
    take_profit_levels := some [{ price := 112, percentage := 1 / 2 },
      { price := 120, percentage := 1 / 5 }]
    stop_loss := some 90 }

/-- The signal produced for `c5WCandidate`. -/
def c5WSignal : TradingSignal :=
  { exchange := "BINANCE"
    symbol := "BTCUSDT"
    action := "OPEN_LONG"
    entry_price := some 100
    entry_zones := []
    take_profit_levels := [{ price := 112, percentage := 5 / 7 },
      { price := 120, percentage := 2 / 7 }]
    stop_loss := some 90
    position_size := 50
    leverage := 10
    margin_mode := "cross"
    confidence := 4 / 5
    risk_level := "MEDIUM" }

/-- C5 witness: a candidate with take-profit sum 0.7 is accepted with
unchanged (empty) zones and renormalized take-profit percentages. -/
theorem c5_amended_only_tp_renormalized_witness :
    c5WSignal.entry_zones = parse_entry_zones c5WCandidate ∧
    (c5WSignal.take_profit_levels ≠ [] →
      ((c5WSignal.take_profit_levels.map fun tp => tp.percentage).sum = 1 ∨
       pyIsClose ((c5WSignal.take_profit_levels.map fun tp => tp.percentage).sum) 1
         = true)) :=
  c5_amended_only_tp_renormalized c5WCandidate c5WSignal (by
    have hic : pyIsClose ((7 : ℚ) / 10) 1 = false := by
      have h1 : |(7 : ℚ) / 10 - 1| = 3 / 10 := by
        rw [abs_sub_comm, show (1 : ℚ) - 7 / 10 = 3 / 10 by norm_num,
          abs_of_pos (by norm_num : (0 : ℚ) < 3 / 10)]
      have h2 : |(7 : ℚ) / 10| = 7 / 10 := by
        rw [abs_of_pos (by norm_num : (0 : ℚ) < 7 / 10)]
      simp only [pyIsClose, h1, h2, abs_one,
        max_eq_right (by norm_num : (7 : ℚ) / 10 ≤ 1),
        decide_eq_false_iff_not, not_le]
      norm_num
    simp only [process_parsed_message, normalize_numbers,
      convert_to_trading_signal, c5WCandidate, parse_entry_zones, parse_tp_levels,
      mk_converted_signal, normalize_tp_percentages, List.map, List.sum_cons,
      List.sum_nil, Option.getD, Option.map]
    norm_num [hic, is_valid, pyInt, c5WSignal]
    try exact fun h => absurd h (by decide))

/- ### C4: multi-zone execution and failure propagation -/

theorem attempted_zone_orders_all_ok
    (exec_order : OrderParams → Except String OrderResult) (sig : TradingSignal) :
    ∀ zones : List EntryZone,
      (∀ z ∈ zones, call_ok (exec_order (zone_order_params sig z)) = true) →
      attempted_zone_orders exec_order sig zones =
        zones.map (zone_order_params sig) := by
  intro zones
  induction zones with
  | nil => intro _; rfl
  | cons z zs ih =>
    intro h
    have hz := h z (by simp)
    cases hx : exec_order (zone_order_params sig z) with
    | error e => rw [hx] at hz; simp [call_ok] at hz
    | ok r =>
      simp only [attempted_zone_orders, hx, List.map]
      rw [ih (fun w hw => h w (by simp [hw]))]

theorem attempted_zone_orders_first_failure
    (exec_order : OrderParams → Except String OrderResult) (sig : TradingSignal) :
    ∀ (pre : List EntryZone) (z : EntryZone) (rest : List EntryZone),
      (∀ w ∈ pre, call_ok (exec_order (zone_order_params sig w)) = true) →
      call_ok (exec_order (zone_order_params sig z)) = false →
      attempted_zone_orders exec_order sig (pre ++ z :: rest) =
        (pre ++ [z]).map (zone_order_params sig) := by
  intro pre
  induction pre with
  | nil =>
    intro z rest _ hz
    cases hx : exec_order (zone_order_params sig z) with
    | error e => simp [attempted_zone_orders, hx]
    | ok r => rw [hx] at hz; simp [call_ok] at hz
  | cons w ws ih =>
    intro z rest hpre hz
    have hw := hpre w (by simp)
    cases hx : exec_order (zone_order_params sig w) with
    | error e => rw [hx] at hw; simp [call_ok] at hw
    | ok r =>
      simp only [List.cons_append, attempted_zone_orders, hx, List.map]
      exact congrArg (zone_order_params sig w :: ·)
        (ih z rest (fun v hv => hpre v (by simp [hv])) hz)

theorem execute_signal_first_zone_result
    (exec_order : OrderParams → Except String OrderResult) (sig : TradingSignal)
    (r : OrderResult) (rs : List OrderResult)
    (hrun : run_zone_orders exec_order sig sig.entry_zones = Except.ok (r :: rs)) :
    execute_signal (some exec_order) sig = r := by
  have hne : ¬ sig.entry_zones.isEmpty = true := by
    intro he
    rw [List.isEmpty_iff] at he
    rw [he] at hrun
    simp [run_zone_orders] at hrun
  simp only [execute_signal, hne, if_pos, hrun]
  simp [hrun]

/-- A two-zone signal for exercising the zone loop. -/
def c4Zone1 : EntryZone := { price := 100, percentage := 1 / 2 }

def c4Zone2 : EntryZone := { price := 99, percentage := 1 / 2 }

def c4Signal : TradingSignal :=
  { exchange := "BINANCE"
    symbol := "BTCUSDT"
    action := "OPEN_LONG"
    entry_price := none
    entry_zones := [c4Zone1, c4Zone2]
    take_profit_levels := [{ price := 112, percentage := 1 }]
    stop_loss := some 90
    position_size := 50
    leverage := 10
    margin_mode := "cross"
    confidence := 4 / 5
    risk_level := "MEDIUM" }

/-- An exchange that rejects the first zone's order (price 100) and accepts
everything else. -/
def c4FailFirst : OrderParams → Except String OrderResult :=
  fun p => if p.price = some 100 then Except.error "exchange rejected order"
    else Except.ok { success := true, order_id := some "oid-1" }

/-- An exchange that accepts every order. -/
def c4AllOk : OrderParams → Except String OrderResult :=
  fun _ => Except.ok { success := true, order_id := some "oid-1" }

/-- C4 counterexample: the claim says all n zone orders are attempted even
when an earlier zone fails.  In the code `create_order` raises on failure,
the zone loop has no handler, and the function-level handler returns a
failed result: with two zones and the first failing, only one order is
attempted and the caller gets the failure, not the first zone's result. -/
theorem c4_failed_zone_short_circuits :
    (attempted_zone_orders c4FailFirst c4Signal c4Signal.entry_zones).length = 1 ∧
    c4Signal.entry_zones.length = 2 ∧
    (execute_signal (some c4FailFirst) c4Signal).success = false ∧
    (execute_signal (some c4FailFirst) c4Signal).error_message =
      some "exchange rejected order" := by
  refine ⟨?_, rfl, ?_, ?_⟩ <;>
    · simp only [c4Signal, c4Zone1, c4Zone2, attempted_zone_orders, execute_signal,
        run_zone_orders, zone_order_params, c4FailFirst]
      norm_num

/-- C4 amended: when every zone order succeeds, `execute_signal` attempts
one LIMIT order per zone and returns the first zone's result; but when a
zone order fails, the exception ends the loop at that zone — the earlier
zones have been attempted, the later ones are not, and the caller receives a
failed `OrderResult` instead of the first zone's result. -/
theorem c4_amended_zone_attempts
    (exec_order : OrderParams → Except String OrderResult) (sig : TradingSignal) :
    ((∀ z ∈ sig.entry_zones, call_ok (exec_order (zone_order_params sig z)) = true) →
      attempted_zone_orders exec_order sig sig.entry_zones =
        sig.entry_zones.map (zone_order_params sig)) ∧
    (∀ (pre : List EntryZone) (z : EntryZone) (rest : List EntryZone),
      sig.entry_zones = pre ++ z :: rest →
      (∀ w ∈ pre, call_ok (exec_order (zone_order_params sig w)) = true) →
      call_ok (exec_order (zone_order_params sig z)) = false →
      attempted_zone_orders exec_order sig sig.entry_zones =
        (pre ++ [z]).map (zone_order_params sig)) ∧
    (∀ (r : OrderResult) (rs : List OrderResult),
      run_zone_orders exec_order sig sig.entry_zones = Except.ok (r :: rs) →
      execute_signal (some exec_order) sig = r) := by
  refine ⟨attempted_zone_orders_all_ok exec_order sig sig.entry_zones, ?_, ?_⟩
  · intro pre z rest hsplit hpre hz
    rw [hsplit]
    exact attempted_zone_orders_first_failure exec_order sig pre z rest hpre hz
  · intro r rs hrun
    exact execute_signal_first_zone_result exec_order sig r rs hrun

/-- C4 witness: the three parts of the amended claim at concrete inputs. -/
theorem c4_amended_zone_attempts_witness :
    attempted_zone_orders c4AllOk c4Signal c4Signal.entry_zones =
      c4Signal.entry_zones.map (zone_order_params c4Signal) ∧
    attempted_zone_orders c4FailFirst c4Signal c4Signal.entry_zones =
      (([] : List EntryZone) ++ [c4Zone1]).map (zone_order_params c4Signal) ∧
    execute_signal (some c4AllOk) c4Signal =
      { success := true, order_id := some "oid-1" } :=
  ⟨(c4_amended_zone_attempts c4AllOk c4Signal).1 (by simp [c4AllOk, call_ok]),
   (c4_amended_zone_attempts c4FailFirst c4Signal).2.1 [] c4Zone1 [c4Zone2]
     (by simp [c4Signal]) (by simp)
     (by simp [c4FailFirst, call_ok, zone_order_params, c4Zone1]),
   (c4_amended_zone_attempts c4AllOk c4Signal).2.2
     { success := true, order_id := some "oid-1" }
     [{ success := true, order_id := some "oid-1" }]
     (by simp [c4AllOk, c4Signal, run_zone_orders, zone_order_params])⟩

/- ### C6: leverage capping in set_leverage and downstream sizing -/

/-- C6: `set_leverage` caps the requested leverage at the exchange maximum,
issues the margin-mode call strictly before the leverage call, and returns
the capped value; a request of 125 against a maximum of 100 yields 100; and
`create_order` feeds exactly the capped value into the USDT-to-contracts
sizing. -/
theorem c6_leverage_capped_and_used_downstream (symbol margin_mode : String)
    (requested max_leverage : ℤ) (precision : ℕ) (usdt_amount use_price : ℚ) :
    (set_leverage symbol requested max_leverage margin_mode).1 =
      min requested max_leverage ∧
    (set_leverage symbol requested max_leverage margin_mode).2 =
      [ExchangeAction.setMarginMode margin_mode symbol,
       ExchangeAction.setLeverage (min requested max_leverage) symbol] ∧
    (set_leverage symbol 125 100 margin_mode).1 = 100 ∧
    create_order_quantity symbol margin_mode precision max_leverage usdt_amount
        use_price (some requested) =
      (convert_amount_to_contracts precision max_leverage usdt_amount use_price
        (min requested max_leverage)).1 := by
  refine ⟨rfl, rfl, ?_, ?_⟩
  · show min (125 : ℤ) 100 = 100
    decide
  · simp [create_order_quantity, set_leverage, convert_amount_to_contracts,
      min_assoc]

/- ### C7: take-profit idempotence and success-gated hit marking -/

theorem check_tp_all_hit (exec_order : OrderParams → Except String OrderResult)
    (action symbol : String) (position_size current_price : ℚ) (now : ℕ) :
    ∀ levels : List TakeProfitLevel, (∀ tp ∈ levels, tp.is_hit = true) →
      check_take_profit_levels exec_order action symbol position_size current_price
        now levels = ([], levels) := by
  intro levels
  induction levels with
  | nil => intro _; rfl
  | cons tp rest ih =>
    intro h
    have htp := h tp (by simp)
    simp only [check_take_profit_levels, htp, if_true]
    rw [ih (fun w hw => h w (by simp [hw]))]

theorem check_tp_hit_only_on_success
    (exec_order : OrderParams → Except String OrderResult)
    (action symbol : String) (position_size current_price : ℚ) (now : ℕ) :
    ∀ levels : List TakeProfitLevel,
      List.Forall₂ (fun tp tp' =>
        tp'.price = tp.price ∧ tp'.percentage = tp.percentage ∧
        (tp'.is_hit = true → tp.is_hit = true ∨
          ∃ res, exec_order (tp_close_order symbol action
              (position_size * tp.percentage)) = Except.ok res ∧
            res.success = true))
        levels
        (check_take_profit_levels exec_order action symbol position_size
          current_price now levels).2 := by
  intro levels
  induction levels with
  | nil => simp [check_take_profit_levels]
  | cons tp rest ih =>
    by_cases hhit : tp.is_hit = true
    · simp only [check_take_profit_levels, hhit, if_true]
      exact List.Forall₂.cons ⟨rfl, rfl, fun _ => Or.inl hhit⟩ ih
    · simp only [check_take_profit_levels, hhit, if_false, Bool.false_eq_true]
      by_cases htrig : (action = "OPEN_LONG" ∧ tp.price ≤ current_price) ∨
          (action = "OPEN_SHORT" ∧ current_price ≤ tp.price)
      · rw [if_pos htrig]
        cases hx : exec_order (tp_close_order symbol action
            (position_size * tp.percentage)) with
        | ok result =>
          refine List.Forall₂.cons ?_ ih
          by_cases hs : result.success = true
          · simp only [hs, if_true]
            exact ⟨by simp, by simp, fun _ => Or.inr ⟨result, hx, hs⟩⟩
          · simp only [hs, if_false]
            exact ⟨rfl, rfl, fun hcon => absurd hcon hhit⟩
        | error e =>
          refine List.Forall₂.cons ⟨rfl, rfl, fun hcon => absurd hcon hhit⟩ ?_
          rw [List.forall₂_same]
          intro x _
          exact ⟨rfl, rfl, fun hx2 => Or.inl hx2⟩
      · rw [if_neg htrig]
        exact List.Forall₂.cons ⟨rfl, rfl, fun hcon => absurd hcon hhit⟩ ih

theorem check_tp_orders_bounded
    (exec_order : OrderParams → Except String OrderResult)
    (action symbol : String) (position_size current_price : ℚ) (now : ℕ) :
    ∀ levels : List TakeProfitLevel,
      (check_take_profit_levels exec_order action symbol position_size
        current_price now levels).1.length ≤
      (levels.filter (fun tp => !tp.is_hit)).length := by
  intro levels
  induction levels with
  | nil => simp [check_take_profit_levels]
  | cons tp rest ih =>
    by_cases hhit : tp.is_hit = true
    · simpa [check_take_profit_levels, hhit, List.filter] using ih
    · have hb : tp.is_hit = false := by
        cases h2 : tp.is_hit
        · rfl
        · exact absurd h2 hhit
      simp only [check_take_profit_levels, hb, Bool.false_eq_true, if_false,
        List.filter, Bool.not_false]
      by_cases htrig : (action = "OPEN_LONG" ∧ tp.price ≤ current_price) ∨
          (action = "OPEN_SHORT" ∧ current_price ≤ tp.price)
      · rw [if_pos htrig]
        cases hx : exec_order (tp_close_order symbol action
            (position_size * tp.percentage)) with
        | ok result => simpa using Nat.succ_le_succ ih
        | error e => simp
      · rw [if_neg htrig]
        exact le_trans ih (by simp)

/-- An already-hit take-profit level. -/
def c7HitLevel : TakeProfitLevel :=
  { price := 110, percentage := 1 / 2, is_hit := true, hit_time := some 0 }

/-- An exchange that accepts every order, for the C7 witness. -/
def c7AllOk : OrderParams → Except String OrderResult :=
  fun _ => Except.ok { success := true, order_id := some "oid-7" }

/-- C7: one monitoring pass over the take-profit levels (i) issues no close
order and changes nothing when every level is already hit, (ii) marks a
level hit (with a hit time) only if it was hit before or its close order
returned success — so a failed close leaves it eligible for retry — while
preserving price and percentage, and (iii) never issues more close orders
than there are not-yet-hit levels. -/
theorem c7_take_profit_idempotent_and_success_gated
    (exec_order : OrderParams → Except String OrderResult)
    (action symbol : String) (position_size current_price : ℚ) (now : ℕ)
    (levels : List TakeProfitLevel) :
    ((∀ tp ∈ levels, tp.is_hit = true) →
      check_take_profit_levels exec_order action symbol position_size current_price
        now levels = ([], levels)) ∧
    List.Forall₂ (fun tp tp' =>
        tp'.price = tp.price ∧ tp'.percentage = tp.percentage ∧
        (tp'.is_hit = true → tp.is_hit = true ∨
          ∃ res, exec_order (tp_close_order symbol action
              (position_size * tp.percentage)) = Except.ok res ∧
            res.success = true))
      levels
      (check_take_profit_levels exec_order action symbol position_size
        current_price now levels).2 ∧
    (check_take_profit_levels exec_order action symbol position_size
      current_price now levels).1.length ≤
      (levels.filter (fun tp => !tp.is_hit)).length :=
  ⟨check_tp_all_hit exec_order action symbol position_size current_price now levels,
   check_tp_hit_only_on_success exec_order action symbol position_size current_price
     now levels,
   check_tp_orders_bounded exec_order action symbol position_size current_price
     now levels⟩

/-- C7 witness: re-checking a single already-hit level at a price beyond it
issues no close order and leaves the level unchanged. -/
theorem c7_take_profit_idempotent_and_success_gated_witness :
    check_take_profit_levels c7AllOk "OPEN_LONG" "BTCUSDT" 1 115 3
      [c7HitLevel] = ([], [c7HitLevel]) :=
  (c7_take_profit_idempotent_and_success_gated c7AllOk "OPEN_LONG" "BTCUSDT" 1 115 3
    [c7HitLevel]).1 (by simp [c7HitLevel])

/- ### C8: get_balance never raises and zeroes out fetch failures -/

/-- C8: when the cache cannot serve the call and the underlying balance
fetch fails, `get_balance` returns the all-zero `AccountBalance` instead of
propagating the error (the embedded function is total, mirroring the
catch-all handler in the source). -/
theorem c8_get_balance_zero_on_fetch_failure (balance_cache : Option AccountBalance)
    (balance_cache_time now cache_duration : ℚ) (e : String)
    (hmiss : ¬ (balance_cache.isSome ∧ now - balance_cache_time < cache_duration)) :
    (get_balance balance_cache balance_cache_time now cache_duration
        (Except.error e)).total_equity = 0 ∧
    (get_balance balance_cache balance_cache_time now cache_duration
        (Except.error e)).used_margin = 0 ∧
    (get_balance balance_cache balance_cache_time now cache_duration
        (Except.error e)).free_margin = 0 ∧
    (get_balance balance_cache balance_cache_time now cache_duration
        (Except.error e)).margin_ratio = 0 ∧
    (get_balance balance_cache balance_cache_time now cache_duration
        (Except.error e)).unrealized_pnl = 0 ∧
    (get_balance balance_cache balance_cache_time now cache_duration
        (Except.error e)).realized_pnl = 0 := by
  simp only [get_balance, if_neg hmiss]
  simp

/-- C8 witness: an expired-cache invocation whose fetch fails. -/
theorem c8_get_balance_zero_on_fetch_failure_witness :
    (get_balance none 0 1 (1 / 2) (Except.error "network down")).total_equity = 0 ∧
    (get_balance none 0 1 (1 / 2) (Except.error "network down")).used_margin = 0 ∧
    (get_balance none 0 1 (1 / 2) (Except.error "network down")).free_margin = 0 ∧
    (get_balance none 0 1 (1 / 2) (Except.error "network down")).margin_ratio = 0 ∧
    (get_balance none 0 1 (1 / 2) (Except.error "network down")).unrealized_pnl = 0 ∧
    (get_balance none 0 1 (1 / 2) (Except.error "network down")).realized_pnl = 0 :=
  c8_get_balance_zero_on_fetch_failure none 0 1 (1 / 2) "network down"
    (by simp)

/- ### C10: the shape of get_positions results depends on the cache -/

/-- C10: an unexpired `'all'` cache entry makes `get_positions` return a
one-element list whose element is the entire cached position list; an
unexpired per-symbol entry yields a one-element list holding that single
position; a cache miss yields the flat list of fetched nonzero positions. -/
theorem c10_get_positions_cache_shapes (now cache_duration t : ℚ)
    (ps : List PositionInfo) (p : PositionInfo) (sym : String)
    (fetched : List RawPosition) (hfresh : now - t < cache_duration) :
    (get_positions_cached
        (fun k => if k = "all" then some (PosCacheValue.aggregate ps, t) else none)
        now cache_duration none fetched).1 = [PosCacheValue.aggregate ps] ∧
    (get_positions_cached
        (fun k => if k = sym then some (PosCacheValue.single p, t) else none)
        now cache_duration (some sym) fetched).1 = [PosCacheValue.single p] ∧
    (get_positions_cached (fun _ => none) now cache_duration none fetched).1 =
      ((fetched.filter (fun q => decide (q.contracts ≠ 0))).filterMap
        from_exchange_position).map PosCacheValue.single := by
  refine ⟨?_, ?_, ?_⟩ <;>
    simp [get_positions_cached, hfresh]

/-- C10 witness: a fresh aggregate hit, a fresh per-symbol hit, and a cache
miss at concrete inputs. -/
theorem c10_get_positions_cache_shapes_witness :
    (get_positions_cached
        (fun k => if k = "all" then some (PosCacheValue.aggregate [], (0 : ℚ)) else none)
        0 1 none []).1 = [PosCacheValue.aggregate []] ∧
    (get_positions_cached
        (fun k => if k = "BTCUSDT" then
          some (PosCacheValue.single
            { symbol := "BTCUSDT", side := PositionSide.LONG, size := 1,
              entry_price := 100, margin_mode := MarginType.CROSS, leverage := 10 },
            (0 : ℚ))
          else none)
        0 1 (some "BTCUSDT") []).1 =
      [PosCacheValue.single
        { symbol := "BTCUSDT", side := PositionSide.LONG, size := 1,
          entry_price := 100, margin_mode := MarginType.CROSS, leverage := 10 }] ∧
    (get_positions_cached (fun _ => none) 0 1 none []).1 =
      ((List.filter (fun q => decide (q.contracts ≠ 0)) []).filterMap
        from_exchange_position).map PosCacheValue.single :=
  c10_get_positions_cache_shapes 0 1 0 []
    { symbol := "BTCUSDT", side := PositionSide.LONG, size := 1,
      entry_price := 100, margin_mode := MarginType.CROSS, leverage := 10 }
    "BTCUSDT" [] (by norm_num)

end CopyTradeBot
